import Mathlib

/-!
Verification of the build-metadata resolution and build orchestration of
esbuild-node-tsc (src/index.ts), as a shallow embedding in Lean 4.

JavaScript optional values are modelled as `Option`; JavaScript truthiness
of the `||` fallback operator is modelled per type (empty strings and
`false` are falsy, arrays are always truthy).  Asynchronous operations are
modelled by passing their outcomes (`Except Err _`) as explicit parameters
and recording the sequence of observable effects as an event trace.
-/

namespace Etsc

/-- Error value carried by a rejected promise. -/
structure Err where
  msg : String
  deriving DecidableEq, Repr

/-- Result value of the esbuild sourcemap resolution: JavaScript `false`/`true`,
the string literal "inline", or `undefined` (the raw pass-through case). -/
inductive JSVal where
  | bool : Bool → JSVal
  | str : String → JSVal
  | undefined : JSVal
  deriving DecidableEq, Repr

/-- JavaScript truthiness of an optional boolean: only `true` is truthy. -/
def truthy : Option Bool → Bool
  | some b => b
  | none => false

/-- The JavaScript value denoted by an optional boolean (`undefined` when absent). -/
def jsVal : Option Bool → JSVal
  | some b => .bool b
  | none => .undefined

/-- JavaScript `a || d` for an optional string `a`: `undefined` and the empty
string are falsy and fall through to `d`. -/
def jsOrStr : Option String → String → String
  | some s, d => if s = "" then d else s
  | none, d => d

/-- JavaScript `a || d` for an optional boolean `a`. -/
def jsOrBool : Option Bool → Bool → Bool
  | some b, d => b || d
  | none, d => d

/-- JavaScript `a || d` for an optional array `a`: any present array is truthy,
including the empty one. -/
def jsOrList {α : Type} : Option (List α) → List α → List α
  | some l, _ => l
  | none, d => d

/-- Compiler options of the parsed tsconfig as read by src/index.ts:
`outDir`, and the three source-map flags. -/
structure CompilerOptions where
  outDir : Option String := none
  sourceMap : Option Bool := none
  inlineSources : Option Bool := none
  inlineSourceMap : Option Bool := none
  deriving DecidableEq, Repr

/-- Raw compiler options (untouched JSON), used only to recover `target`. -/
structure RawCompilerOptions where
  target : Option String := none
  deriving DecidableEq, Repr

/-- Raw tsconfig object (`tsConfig.raw`), possibly absent pieces throughout. -/
structure RawConfig where
  compilerOptions : Option RawCompilerOptions := none
  deriving DecidableEq, Repr

/-- The resolved tsconfig as produced by `getTSConfig` (the external locator
and parser): options, resolved file names, raw configuration. -/
structure TSConfig where
  options : CompilerOptions
  fileNames : List String
  raw : Option RawConfig := none
  deriving DecidableEq, Repr

/-- Modelled from the spec: the `esbuild` sub-object of the user configuration
(src/config.ts is not among the sources; its shape follows §3/§6 of the spec
and the use sites in src/index.ts).  Plugins are opaque to the core and
modelled by name. -/
structure EsbuildUserConfig where
  entryPoints : Option (List String) := none
  target : Option String := none
  minify : Option Bool := none
  plugins : Option (List String) := none
  deriving DecidableEq, Repr

/-- Modelled from the spec: the `assets` sub-object of the user configuration. -/
structure AssetsUserConfig where
  baseDir : Option String := none
  filePatterns : Option (List String) := none
  deriving DecidableEq, Repr

/-- Modelled from the spec: the `Config` type imported from src/config.ts;
all fields optional, per §3/§6 of the spec and the use sites in src/index.ts. -/
structure Config where
  outDir : Option String := none
  tsConfigFile : Option String := none
  watch : Option Bool := none
  esbuild : Option EsbuildUserConfig := none
  assets : Option AssetsUserConfig := none
  deriving DecidableEq, Repr

/-- Embedding of `esBuildSourceMapOptions` (src/index.ts lines 33-51):
the ordered 4-branch decision over the three tsconfig source-map flags. -/
def esBuildSourceMapOptions (tsConfig : TSConfig) : JSVal :=
  let sourceMap := tsConfig.options.sourceMap
  let inlineSources := tsConfig.options.inlineSources
  let inlineSourceMap := tsConfig.options.inlineSourceMap
  -- inlineSources requires either inlineSourceMap or sourceMap
  if truthy inlineSources && !truthy inlineSourceMap && !truthy sourceMap then
    JSVal.bool false
  -- Mutually exclusive in tsconfig
  else if truthy sourceMap && truthy inlineSourceMap then
    JSVal.bool false
  else if truthy inlineSourceMap then
    JSVal.str "inline"
  else
    jsVal sourceMap

/-- Modelled from the spec: the 4-branch rule of §4.1 / claim C1, written from
the spec's words ("if inlineSources is set and neither inlineSourceMap nor
sourceMap is set, the result is false; otherwise if sourceMap and
inlineSourceMap are both set, the result is false; otherwise if
inlineSourceMap is set, the result is inline; otherwise the raw sourceMap
value is passed through"). -/
def resolveSourceMapModeSpec (sourceMap inlineSourceMap inlineSources : Option Bool) : JSVal :=
  if truthy inlineSources = true ∧ truthy inlineSourceMap = false ∧ truthy sourceMap = false then
    JSVal.bool false
  else if truthy sourceMap = true ∧ truthy inlineSourceMap = true then
    JSVal.bool false
  else if truthy inlineSourceMap = true then
    JSVal.str "inline"
  else
    jsVal sourceMap

/-- The esbuild build options assembled by `getBuildMetadata`. -/
structure EsbuildOptions where
  outdir : String
  entryPoints : List String
  sourcemap : JSVal
  target : String
  minify : Bool
  plugins : List String
  tsconfig : String
  deriving DecidableEq, Repr

/-- The asset-copy options assembled by `getBuildMetadata`. -/
structure AssetsOptions where
  baseDir : String
  outDir : String
  patterns : List String
  deriving DecidableEq, Repr

/-- The triple returned by `getBuildMetadata`. -/
structure BuildMetadata where
  outDir : String
  esbuildOptions : EsbuildOptions
  assetsOptions : AssetsOptions
  deriving DecidableEq, Repr

/-- The mandatory exclusion pattern appended to the asset patterns
(the brace characters are written with escapes). -/
def compilableExclusion : String := "!**/*.\x7bts,js,tsx,jsx\x7d"

/-- Embedding of `getBuildMetadata` (src/index.ts lines 53-87).  The file IO
performed by `getTSConfig` is externalized: the resolved tsconfig and the
located tsconfig file path are passed in as parameters. -/
def getBuildMetadata (userConfig : Config) (tsConfig : TSConfig) (tsConfigFile : String) :
    BuildMetadata :=
  let outDir := jsOrStr userConfig.outDir (jsOrStr tsConfig.options.outDir "dist")
  let esbuildEntryPoints := jsOrList (userConfig.esbuild.bind EsbuildUserConfig.entryPoints) []
  let srcFiles := tsConfig.fileNames ++ esbuildEntryPoints
  let sourcemap := esBuildSourceMapOptions tsConfig
  let target :=
    jsOrStr (userConfig.esbuild.bind EsbuildUserConfig.target)
      (jsOrStr ((tsConfig.raw.bind RawConfig.compilerOptions).bind RawCompilerOptions.target)
        "es6")
  let minify := jsOrBool (userConfig.esbuild.bind EsbuildUserConfig.minify) false
  let plugins := jsOrList (userConfig.esbuild.bind EsbuildUserConfig.plugins) []
  let assetPatterns := jsOrList (userConfig.assets.bind AssetsUserConfig.filePatterns) ["**"]
  { outDir := outDir
    esbuildOptions :=
      { outdir := outDir
        entryPoints := srcFiles
        sourcemap := sourcemap
        target := target
        minify := minify
        plugins := plugins
        tsconfig := tsConfigFile }
    assetsOptions :=
      { baseDir := jsOrStr (userConfig.assets.bind AssetsUserConfig.baseDir) "src"
        outDir := outDir
        patterns := assetPatterns ++ [compilableExclusion] } }

/-- The invocation record passed to the external esbuild `build` service. -/
structure BuildInvocation where
  options : EsbuildOptions
  bundle : Bool
  format : String
  platform : String
  incremental : Bool
  deriving DecidableEq, Repr

/-- Embedding of `buildSourceFiles` (src/index.ts lines 89-96): the esbuild
invocation it performs (bundling disabled, CommonJS format, node platform;
no `incremental` key, modelled as `false`). -/
def buildSourceFiles (esbuildOptions : EsbuildOptions) : BuildInvocation :=
  { options := esbuildOptions
    bundle := false
    format := "cjs"
    platform := "node"
    incremental := false }

/-- Split a character list at `/` into path segments. -/
def splitSegsAux : List Char → List Char → List String
  | [], cur => [String.mk cur.reverse]
  | c :: cs, cur =>
    if c = '/' then String.mk cur.reverse :: splitSegsAux cs []
    else splitSegsAux cs (c :: cur)

/-- Split a path string at `/` into its segments. -/
def splitSegs (s : String) : List String :=
  splitSegsAux s.data []

/-- Whether a POSIX path is absolute (starts with `/`). -/
def isAbsolute (p : String) : Bool :=
  match p.data with
  | c :: _ => c = '/'
  | [] => false

/-- Drop `.`, empty segments, and resolve `..` against the accumulated path;
part of the model of the external `path` module. -/
def collapseDots (segs : List String) : List String :=
  segs.foldl
    (fun acc seg =>
      if seg = "" ∨ seg = "." then acc
      else if seg = ".." then acc.dropLast
      else acc ++ [seg])
    []

/-- Resolve a possibly-relative POSIX path against the working directory,
returning its absolute segment list; model of Node's `path.resolve`. -/
def resolveAbs (cwd p : String) : List String :=
  if isAbsolute p then collapseDots (splitSegs p)
  else collapseDots (splitSegs cwd ++ splitSegs p)

/-- Drop the longest common prefix of two segment lists. -/
def dropCommon : List String → List String → List String × List String
  | a :: as, b :: bs => if a = b then dropCommon as bs else (a :: as, b :: bs)
  | as, bs => (as, bs)

/-- Join path segments with `/`. -/
def joinSlash : List String → String
  | [] => ""
  | [s] => s
  | s :: rest => s ++ "/" ++ joinSlash rest

/-- Model of Node's POSIX `path.relative(f, t)`: both arguments are resolved
against the working directory, the common prefix is removed, and the walk
from the first to the second is returned. -/
def pathRelative (cwd f t : String) : String :=
  let fAbs := resolveAbs cwd f
  let tAbs := resolveAbs cwd t
  let rest := dropCommon fAbs tAbs
  joinSlash (rest.1.map (fun _ => "..") ++ rest.2)

/-- The invocation record passed to the external `cpy` service. -/
structure CpyInvocation where
  patterns : List String
  dest : String
  cwd : String
  parents : Bool
  deriving DecidableEq, Repr

/-- Embedding of `copyNonSourceFiles` (src/index.ts lines 100-110): the `cpy`
invocation it performs.  Node's `path.relative` consults the process working
directory, passed here as `processCwd`. -/
def copyNonSourceFiles (processCwd : String) (a : AssetsOptions) : CpyInvocation :=
  let relativeOutDir := pathRelative processCwd a.baseDir a.outDir
  { patterns := a.patterns
    dest := relativeOutDir
    cwd := a.baseDir
    parents := true }

/-- Observable effects of the orchestration functions, in program order. -/
inductive Ev where
  | rimrafSync (dir : String)
  | consoleTime (label : String)
  | consoleTimeEnd (label : String)
  | consoleLog
  | consoleError
  | buildStart (inv : BuildInvocation)
  | buildDone
  | copyStart (inv : CpyInvocation)
  | copyDone
  | rebuildStart
  | rebuildDone
  | subscribe (who : String) (patterns : List String) (ignored : String)
  | close (who : String)
  deriving DecidableEq, Repr

/-- Recognizes the deletion of the output directory. -/
def isRimraf : Ev → Bool
  | .rimrafSync _ => true
  | _ => false

/-- Recognizes the start of an esbuild build. -/
def isBuildStart : Ev → Bool
  | .buildStart _ => true
  | _ => false

/-- Recognizes the start of an esbuild build configured for incremental rebuilds. -/
def isIncrementalBuildStart : Ev → Bool
  | .buildStart inv => inv.incremental
  | _ => false

/-- Recognizes the completion of the code build. -/
def isBuildDone : Ev → Bool
  | .buildDone => true
  | _ => false

/-- Recognizes the start of an asset copy. -/
def isCopyStart : Ev → Bool
  | .copyStart _ => true
  | _ => false

/-- Recognizes an error print. -/
def isConsoleError : Ev → Bool
  | .consoleError => true
  | _ => false

/-- Recognizes the closing of a watcher subscription. -/
def isClose : Ev → Bool
  | .close _ => true
  | _ => false

/-- The `ignored` argument of a watch subscription, when the event is one. -/
def subIgnored : Ev → Option String
  | .subscribe _ _ ignored => some ignored
  | _ => none

/-- The identity of a watch subscription, when the event is one. -/
def subWho : Ev → Option String
  | .subscribe who _ _ => some who
  | _ => none

/-- Semantics of `Promise.all` over two already-determined outcomes: both must
succeed for the pair to be returned; otherwise a rejection reason of one of
the failed operations is propagated. -/
def promiseAll2 {α β : Type} : Except Err α → Except Err β → Except Err (α × β)
  | .ok a, .ok b => .ok (a, b)
  | .error e, _ => .error e
  | .ok _, .error e => .error e

/-- Embedding of `normalBuild` (src/index.ts lines 112-119): the output
directory is deleted synchronously, then both the code build and the asset
copy are launched (their start events appear unconditionally, before either
outcome is inspected), and the result is the `Promise.all` join of the two
outcomes, which are passed in as parameters. -/
def normalBuild {α β : Type} (processCwd outDir : String) (esbuildOptions : EsbuildOptions)
    (assetsOptions : AssetsOptions) (buildRes : Except Err α) (copyRes : Except Err β) :
    List Ev × Except Err (α × β) :=
  ([.rimrafSync outDir,
    .buildStart (buildSourceFiles esbuildOptions),
    .copyStart (copyNonSourceFiles processCwd assetsOptions)],
   promiseAll2 buildRes copyRes)

/-- Subscription state of the two watchers installed by `watchBuild`. -/
structure WatchState where
  assetActive : Bool
  codeActive : Bool
  deriving DecidableEq, Repr

/-- Embedding of `watchBuild` (src/index.ts lines 121-161): delete the output
directory, run one initial code build with `incremental: true`, then one
initial asset copy, then install the two watcher subscriptions, each with the
output-directory exclusion.  A failing await rejects the async function, so
later events do not occur; the outcomes of the two initial operations are
passed in as parameters. -/
def watchBuild (processCwd outDir : String) (esbuildOptions : EsbuildOptions)
    (assetsOptions : AssetsOptions) (buildRes : Except Err Unit) (copyRes : Except Err Unit) :
    List Ev × Except Err WatchState :=
  let inv : BuildInvocation :=
    { options := esbuildOptions
      bundle := false
      format := "cjs"
      platform := "node"
      incremental := true }
  let pre : List Ev :=
    [.rimrafSync outDir, .consoleTime "Initial build in", .buildStart inv]
  match buildRes with
  | .error e => (pre, .error e)
  | .ok _ =>
    let pre2 : List Ev :=
      pre ++
        [.buildDone, .consoleTimeEnd "Initial build in",
         .consoleTime "Initial assets copied in",
         .copyStart (copyNonSourceFiles processCwd assetsOptions)]
    match copyRes with
    | .error e => (pre2, .error e)
    | .ok _ =>
      let ignored := outDir ++ "/**"
      (pre2 ++
        [.copyDone, .consoleTimeEnd "Initial assets copied in", .consoleLog,
         .subscribe "asset" assetsOptions.patterns ignored,
         .subscribe "code" esbuildOptions.entryPoints ignored],
       .ok { assetActive := true, codeActive := true })

/-- Embedding of the asset watcher's change callback (src/index.ts lines
141-146): log the parameters, start the timer, re-run the full asset copy.
No catch clause: on failure the async callback rejects after the copy start,
emitting nothing further; the watcher state is never touched. -/
def assetChangeHandler (processCwd : String) (assetsOptions : AssetsOptions)
    (copyRes : Except Err Unit) (s : WatchState) : WatchState × List Ev :=
  (s,
   [.consoleLog, .consoleTime "Assets copied in",
    .copyStart (copyNonSourceFiles processCwd assetsOptions)] ++
     match copyRes with
     | .ok _ => [.copyDone, .consoleTimeEnd "Assets copied in"]
     | .error _ => [])

/-- Embedding of the code watcher's change callback (src/index.ts lines
149-154): log the parameters, start the timer, invoke `rebuild()` on the
persistent incremental handle.  No catch clause: on failure the async
callback rejects after the rebuild start; the watcher state is never
touched. -/
def codeChangeHandler (rebuildRes : Except Err Unit) (s : WatchState) :
    WatchState × List Ev :=
  (s,
   [.consoleLog, .consoleTime "Rebuilt in", .rebuildStart] ++
     match rebuildRes with
     | .ok _ => [.rebuildDone, .consoleTimeEnd "Rebuilt in"]
     | .error _ => [])

/-! Theorems -/

/-- C1: for every combination of the three boolean/undefined inputs
`sourceMap`, `inlineSourceMap` and `inlineSources`, `esBuildSourceMapOptions`
returns exactly the value of the ordered 4-branch rule of the spec
(`resolveSourceMapModeSpec`), enumerating all combinations. -/
theorem esBuildSourceMapOptions_matches_spec_rule (cfg : TSConfig) :
    esBuildSourceMapOptions cfg =
      resolveSourceMapModeSpec cfg.options.sourceMap cfg.options.inlineSourceMap
        cfg.options.inlineSources := by
  obtain ⟨⟨od, sm, isrc, ism⟩, fns, raw⟩ := cfg
  have h : ∀ sm ism isrc : Option Bool,
      esBuildSourceMapOptions
          { options := { sourceMap := sm, inlineSources := isrc, inlineSourceMap := ism },
            fileNames := [], raw := none } =
        resolveSourceMapModeSpec sm ism isrc := by decide
  exact h sm ism isrc

/-- C2: for every user configuration (hence every possible
`assets.filePatterns`, present, absent or empty), the asset pattern list
computed by `getBuildMetadata` has the compilable-extension exclusion as its
last element. -/
theorem assetsPatterns_last_is_exclusion (u : Config) (tc : TSConfig) (f : String) :
    ((getBuildMetadata u tc f).assetsOptions.patterns).getLast? = some compilableExclusion := by
  show ((jsOrList (u.assets.bind AssetsUserConfig.filePatterns) ["**"]) ++
      [compilableExclusion]).getLast? = some compilableExclusion
  rw [List.getLast?_append_cons]
  rfl

/-- C7: the computed code-build entry points are always the compiler-resolved
file names followed by the user-supplied entry points, each in order; when the
user supplies none, they are the compiler-resolved file names alone. -/
theorem entryPoints_is_fileNames_append_user (u : Config) (tc : TSConfig) (f : String) :
    (∀ e eps, u.esbuild = some e → e.entryPoints = some eps →
      (getBuildMetadata u tc f).esbuildOptions.entryPoints = tc.fileNames ++ eps) ∧
    (u.esbuild = none →
      (getBuildMetadata u tc f).esbuildOptions.entryPoints = tc.fileNames) ∧
    (∀ e, u.esbuild = some e → e.entryPoints = none →
      (getBuildMetadata u tc f).esbuildOptions.entryPoints = tc.fileNames) := by
  refine ⟨fun e eps he hp => ?_, fun he => ?_, fun e he hp => ?_⟩ <;>
    simp [getBuildMetadata, he, jsOrList] <;> simp [hp, jsOrList]

/-- C7 witness: the spec's scenario, compiler files `a.ts`, `b.ts` and user
entry point `extra.ts` yield `a.ts`, `b.ts`, `extra.ts` in that order. -/
theorem entryPoints_is_fileNames_append_user_witness :
    (getBuildMetadata { esbuild := some { entryPoints := some ["extra.ts"] } }
        { options := {}, fileNames := ["a.ts", "b.ts"], raw := none }
        "tsconfig.json").esbuildOptions.entryPoints = ["a.ts", "b.ts", "extra.ts"] :=
  (entryPoints_is_fileNames_append_user _ _ _).1 _ _ rfl rfl

/-- C9: `copyNonSourceFiles` invokes the copy utility with the working
directory set to `baseDir` and the destination set to
`path.relative(baseDir, outDir)`; concretely, base directory `src` and output
directory `dist` yield destination `../dist`. -/
theorem copyNonSourceFiles_cwd_and_dest (processCwd : String) (a : AssetsOptions) :
    (copyNonSourceFiles processCwd a).cwd = a.baseDir ∧
    (copyNonSourceFiles processCwd a).dest = pathRelative processCwd a.baseDir a.outDir ∧
    pathRelative "/proj" "src" "dist" = "../dist" :=
  ⟨rfl, rfl, by decide⟩

/-- C10: when `assets.filePatterns` is present as an empty list, the
match-everything default is not substituted: the computed asset pattern list
is exactly the single exclusion pattern. -/
theorem emptyFilePatterns_skips_default (u : Config) (tc : TSConfig) (f : String)
    (a : AssetsUserConfig) (ha : u.assets = some a) (hp : a.filePatterns = some []) :
    (getBuildMetadata u tc f).assetsOptions.patterns = [compilableExclusion] := by
  simp [getBuildMetadata, ha, hp, jsOrList]

/-- C10 witness: a user configuration with an empty `filePatterns` list yields
exactly the exclusion pattern. -/
theorem emptyFilePatterns_skips_default_witness :
    (getBuildMetadata { assets := some { filePatterns := some [] } }
        { options := {}, fileNames := [], raw := none } "tsconfig.json").assetsOptions.patterns =
      [compilableExclusion] :=
  emptyFilePatterns_skips_default _ _ _ _ rfl rfl

/-- JavaScript fallback on a present non-empty string returns it verbatim. -/
theorem jsOrStr_some_ne {s d : String} (h : s ≠ "") : jsOrStr (some s) d = s := by
  simp [jsOrStr, h]

/-- JavaScript fallback on an absent or empty string falls through. -/
theorem jsOrStr_falsy {o : Option String} {d : String} (h : o = none ∨ o = some "") :
    jsOrStr o d = d := by
  rcases h with h | h <;> subst h <;> simp [jsOrStr]

/-- C3 counterexample: with `UserConfig.outDir` present as the empty string and
`CompilerConfig.outDir` equal to `build`, the resolved `outDir` is `build`, not
the present user value — the JavaScript fallback skips falsy strings, so a
present UserConfig value is not always used verbatim. -/
theorem userOutDir_empty_not_verbatim :
    ({ outDir := some "" } : Config).outDir = some "" ∧
    (getBuildMetadata { outDir := some "" }
        { options := { outDir := some "build" }, fileNames := [], raw := none }
        "tsconfig.json").outDir = "build" ∧
    (getBuildMetadata { outDir := some "" }
        { options := { outDir := some "build" }, fileNames := [], raw := none }
        "tsconfig.json").outDir ≠ "" :=
  ⟨rfl, rfl, by decide⟩

/-- C3 amended: the UserConfig value is used verbatim whenever it is present
and truthy — for the string fields `outDir`, `target` and `baseDir` a present
empty string falls through as if absent; the list fields `plugins` and
`filePatterns` and the boolean `minify` are used verbatim whenever present —
otherwise the CompilerConfig equivalent where one exists and is non-empty,
otherwise the literal default. -/
theorem getBuildMetadata_precedence (u : Config) (tc : TSConfig) (f : String) :
    (∀ s, u.outDir = some s → s ≠ "" →
      (getBuildMetadata u tc f).outDir = s) ∧
    ((u.outDir = none ∨ u.outDir = some "") →
      ∀ t, tc.options.outDir = some t → t ≠ "" →
      (getBuildMetadata u tc f).outDir = t) ∧
    ((u.outDir = none ∨ u.outDir = some "") →
      (tc.options.outDir = none ∨ tc.options.outDir = some "") →
      (getBuildMetadata u tc f).outDir = "dist") ∧
    (∀ s, u.esbuild.bind EsbuildUserConfig.target = some s → s ≠ "" →
      (getBuildMetadata u tc f).esbuildOptions.target = s) ∧
    ((u.esbuild.bind EsbuildUserConfig.target = none ∨
        u.esbuild.bind EsbuildUserConfig.target = some "") →
      ∀ t, (tc.raw.bind RawConfig.compilerOptions).bind RawCompilerOptions.target = some t →
        t ≠ "" →
      (getBuildMetadata u tc f).esbuildOptions.target = t) ∧
    ((u.esbuild.bind EsbuildUserConfig.target = none ∨
        u.esbuild.bind EsbuildUserConfig.target = some "") →
      ((tc.raw.bind RawConfig.compilerOptions).bind RawCompilerOptions.target = none ∨
        (tc.raw.bind RawConfig.compilerOptions).bind RawCompilerOptions.target = some "") →
      (getBuildMetadata u tc f).esbuildOptions.target = "es6") ∧
    (∀ b, u.esbuild.bind EsbuildUserConfig.minify = some b →
      (getBuildMetadata u tc f).esbuildOptions.minify = b) ∧
    (u.esbuild.bind EsbuildUserConfig.minify = none →
      (getBuildMetadata u tc f).esbuildOptions.minify = false) ∧
    (∀ ps, u.esbuild.bind EsbuildUserConfig.plugins = some ps →
      (getBuildMetadata u tc f).esbuildOptions.plugins = ps) ∧
    (u.esbuild.bind EsbuildUserConfig.plugins = none →
      (getBuildMetadata u tc f).esbuildOptions.plugins = []) ∧
    (∀ s, u.assets.bind AssetsUserConfig.baseDir = some s → s ≠ "" →
      (getBuildMetadata u tc f).assetsOptions.baseDir = s) ∧
    ((u.assets.bind AssetsUserConfig.baseDir = none ∨
        u.assets.bind AssetsUserConfig.baseDir = some "") →
      (getBuildMetadata u tc f).assetsOptions.baseDir = "src") ∧
    (∀ ps, u.assets.bind AssetsUserConfig.filePatterns = some ps →
      (getBuildMetadata u tc f).assetsOptions.patterns = ps ++ [compilableExclusion]) ∧
    (u.assets.bind AssetsUserConfig.filePatterns = none →
      (getBuildMetadata u tc f).assetsOptions.patterns = ["**", compilableExclusion]) := by
  refine ⟨?_, ?_, ?_, ?_, ?_, ?_, ?_, ?_, ?_, ?_, ?_, ?_, ?_, ?_⟩
  · intro s hs hne
    show jsOrStr u.outDir (jsOrStr tc.options.outDir "dist") = s
    rw [hs, jsOrStr_some_ne hne]
  · intro hu t ht hne
    show jsOrStr u.outDir (jsOrStr tc.options.outDir "dist") = t
    rw [jsOrStr_falsy hu, ht, jsOrStr_some_ne hne]
  · intro hu hc
    show jsOrStr u.outDir (jsOrStr tc.options.outDir "dist") = "dist"
    rw [jsOrStr_falsy hu, jsOrStr_falsy hc]
  · intro s hs hne
    show jsOrStr (u.esbuild.bind EsbuildUserConfig.target)
        (jsOrStr ((tc.raw.bind RawConfig.compilerOptions).bind RawCompilerOptions.target)
          "es6") = s
    rw [hs, jsOrStr_some_ne hne]
  · intro hu t ht hne
    show jsOrStr (u.esbuild.bind EsbuildUserConfig.target)
        (jsOrStr ((tc.raw.bind RawConfig.compilerOptions).bind RawCompilerOptions.target)
          "es6") = t
    rw [jsOrStr_falsy hu, ht, jsOrStr_some_ne hne]
  · intro hu hc
    show jsOrStr (u.esbuild.bind EsbuildUserConfig.target)
        (jsOrStr ((tc.raw.bind RawConfig.compilerOptions).bind RawCompilerOptions.target)
          "es6") = "es6"
    rw [jsOrStr_falsy hu, jsOrStr_falsy hc]
  · intro b hb
    show jsOrBool (u.esbuild.bind EsbuildUserConfig.minify) false = b
    rw [hb]
    simp [jsOrBool]
  · intro hb
    show jsOrBool (u.esbuild.bind EsbuildUserConfig.minify) false = false
    rw [hb]
    rfl
  · intro ps hp
    show jsOrList (u.esbuild.bind EsbuildUserConfig.plugins) [] = ps
    rw [hp]
    rfl
  · intro hp
    show jsOrList (u.esbuild.bind EsbuildUserConfig.plugins) [] = []
    rw [hp]
    rfl
  · intro s hs hne
    show jsOrStr (u.assets.bind AssetsUserConfig.baseDir) "src" = s
    rw [hs, jsOrStr_some_ne hne]
  · intro hu
    show jsOrStr (u.assets.bind AssetsUserConfig.baseDir) "src" = "src"
    rw [jsOrStr_falsy hu]
  · intro ps hp
    show jsOrList (u.assets.bind AssetsUserConfig.filePatterns) ["**"] ++
        [compilableExclusion] = ps ++ [compilableExclusion]
    rw [hp]
    rfl
  · intro hp
    show jsOrList (u.assets.bind AssetsUserConfig.filePatterns) ["**"] ++
        [compilableExclusion] = ["**", compilableExclusion]
    rw [hp]
    rfl

/-- C3 witness: a present non-empty user `outDir` is used verbatim. -/
theorem getBuildMetadata_precedence_witness :
    (getBuildMetadata { outDir := some "out" }
        { options := { outDir := some "build" }, fileNames := [], raw := none }
        "tsconfig.json").outDir = "out" :=
  (getBuildMetadata_precedence _ _ _).1 "out" rfl (by decide)

/-- C4: in one-shot mode the output directory is deleted first and both the
code build and the asset copy are then launched unconditionally (the trace is
fixed, independent of either outcome); the run succeeds with both results iff
both operations succeed, and any failure propagates an underlying error. -/
theorem normalBuild_join_semantics {α β : Type} (processCwd outDir : String)
    (eso : EsbuildOptions) (aso : AssetsOptions)
    (buildRes : Except Err α) (copyRes : Except Err β) :
    (normalBuild processCwd outDir eso aso buildRes copyRes).1 =
      [Ev.rimrafSync outDir, Ev.buildStart (buildSourceFiles eso),
       Ev.copyStart (copyNonSourceFiles processCwd aso)] ∧
    (∀ a b, (normalBuild processCwd outDir eso aso buildRes copyRes).2 = Except.ok (a, b) ↔
      buildRes = Except.ok a ∧ copyRes = Except.ok b) ∧
    (∀ e, (normalBuild processCwd outDir eso aso buildRes copyRes).2 = Except.error e →
      buildRes = Except.error e ∨ copyRes = Except.error e) ∧
    (∀ e, buildRes = Except.error e →
      ∃ e2, (normalBuild processCwd outDir eso aso buildRes copyRes).2 = Except.error e2) ∧
    (∀ e, copyRes = Except.error e →
      ∃ e2, (normalBuild processCwd outDir eso aso buildRes copyRes).2 = Except.error e2) := by
  refine ⟨rfl, ?_, ?_, ?_, ?_⟩ <;>
    cases buildRes <;> cases copyRes <;> simp [normalBuild, promiseAll2]

/-- C4 witness: with a successful code build and a failing asset copy, the
one-shot run fails with an error. -/
theorem normalBuild_join_semantics_witness :
    ∃ e, (normalBuild "/proj" "dist"
        { outdir := "dist", entryPoints := [], sourcemap := JSVal.bool false, target := "es6",
          minify := false, plugins := [], tsconfig := "tsconfig.json" }
        { baseDir := "src", outDir := "dist", patterns := ["**"] }
        (Except.ok (0 : Nat))
        (Except.error { msg := "copy failed" } : Except Err Nat)).2 = Except.error e :=
  (normalBuild_join_semantics _ _ _ _ _ _).2.2.2.2 { msg := "copy failed" } rfl

/-- C6: in watch mode the output directory is deleted exactly once and first,
exactly one initial code build starts, configured incremental, and the single
initial asset copy never starts before the code build has completed. -/
theorem watchBuild_sequential (processCwd outDir : String) (eso : EsbuildOptions)
    (aso : AssetsOptions) (buildRes copyRes : Except Err Unit) :
    (watchBuild processCwd outDir eso aso buildRes copyRes).1.head? =
      some (Ev.rimrafSync outDir) ∧
    (watchBuild processCwd outDir eso aso buildRes copyRes).1.countP isRimraf = 1 ∧
    (watchBuild processCwd outDir eso aso buildRes copyRes).1.countP isBuildStart = 1 ∧
    (watchBuild processCwd outDir eso aso buildRes copyRes).1.countP
      isIncrementalBuildStart = 1 ∧
    ((watchBuild processCwd outDir eso aso buildRes copyRes).1.takeWhile
      (fun e => !isBuildDone e)).countP isCopyStart = 0 ∧
    (watchBuild processCwd outDir eso aso buildRes copyRes).1.countP isCopyStart ≤ 1 ∧
    (buildRes = Except.ok () → copyRes = Except.ok () →
      (watchBuild processCwd outDir eso aso buildRes copyRes).1.countP isCopyStart = 1) := by
  cases buildRes with
  | error e =>
    cases copyRes with
    | error e2 =>
      exact ⟨rfl, rfl, rfl, rfl, rfl, Nat.zero_le 1, fun h1 _ => Except.noConfusion h1⟩
    | ok u2 =>
      exact ⟨rfl, rfl, rfl, rfl, rfl, Nat.zero_le 1, fun h1 _ => Except.noConfusion h1⟩
  | ok u1 =>
    cases copyRes with
    | error e2 =>
      exact ⟨rfl, rfl, rfl, rfl, rfl, Nat.le_refl 1, fun _ h2 => Except.noConfusion h2⟩
    | ok u2 =>
      exact ⟨rfl, rfl, rfl, rfl, rfl, Nat.le_refl 1, fun _ _ => rfl⟩

/-- C6 witness: with both initial operations succeeding, exactly one initial
asset copy starts. -/
theorem watchBuild_sequential_witness :
    (watchBuild "/proj" "dist"
        { outdir := "dist", entryPoints := ["a.ts"], sourcemap := JSVal.bool false,
          target := "es6", minify := false, plugins := [], tsconfig := "tsconfig.json" }
        { baseDir := "src", outDir := "dist", patterns := ["**"] }
        (Except.ok ()) (Except.ok ())).1.countP isCopyStart = 1 :=
  (watchBuild_sequential _ _ _ _ _ _).2.2.2.2.2.2 rfl rfl

/-- C8: every watch subscription created by `watchBuild` receives the
exclusion pattern derived from the output directory, and when watch setup
completes both the asset and the code watcher have been subscribed, each
with that exclusion. -/
theorem watchBuild_subscriptions_exclude_outDir (processCwd outDir : String)
    (eso : EsbuildOptions) (aso : AssetsOptions) (buildRes copyRes : Except Err Unit) :
    (watchBuild processCwd outDir eso aso buildRes copyRes).1.filterMap subIgnored =
      List.replicate
        ((watchBuild processCwd outDir eso aso buildRes copyRes).1.filterMap
          subIgnored).length (outDir ++ "/**") ∧
    (∀ s, (watchBuild processCwd outDir eso aso buildRes copyRes).2 = Except.ok s →
      (watchBuild processCwd outDir eso aso buildRes copyRes).1.filterMap subWho =
        ["asset", "code"] ∧
      ((watchBuild processCwd outDir eso aso buildRes copyRes).1.filterMap
        subIgnored).length = 2) := by
  cases buildRes with
  | error e => exact ⟨rfl, fun s h => Except.noConfusion h⟩
  | ok u1 =>
    cases copyRes with
    | error e2 => exact ⟨rfl, fun s h => Except.noConfusion h⟩
    | ok u2 => exact ⟨rfl, fun s _ => ⟨rfl, rfl⟩⟩

/-- C8 witness: on a successful watch setup, exactly the asset and the code
watchers are subscribed. -/
theorem watchBuild_subscriptions_exclude_outDir_witness :
    (watchBuild "/proj" "dist"
        { outdir := "dist", entryPoints := ["a.ts"], sourcemap := JSVal.bool false,
          target := "es6", minify := false, plugins := [], tsconfig := "tsconfig.json" }
        { baseDir := "src", outDir := "dist", patterns := ["**"] }
        (Except.ok ()) (Except.ok ())).1.filterMap subWho = ["asset", "code"] ∧
    ((watchBuild "/proj" "dist"
        { outdir := "dist", entryPoints := ["a.ts"], sourcemap := JSVal.bool false,
          target := "es6", minify := false, plugins := [], tsconfig := "tsconfig.json" }
        { baseDir := "src", outDir := "dist", patterns := ["**"] }
        (Except.ok ()) (Except.ok ())).1.filterMap subIgnored).length = 2 :=
  (watchBuild_subscriptions_exclude_outDir _ _ _ _ _ _).2
    { assetActive := true, codeActive := true } rfl

/-- C5 counterexample: at a concrete failing asset re-copy and a concrete
failing rebuild, the watch callbacks print no error at all (there is no catch
clause), contradicting the claim that such a failure prints the error. -/
theorem watchFailure_prints_no_error :
    ((assetChangeHandler "/proj" { baseDir := "src", outDir := "dist", patterns := ["**"] }
        (Except.error { msg := "EACCES: permission denied" })
        { assetActive := true, codeActive := true }).2).countP isConsoleError = 0 ∧
    ((codeChangeHandler (Except.error { msg := "Transform failed" })
        { assetActive := true, codeActive := true }).2).countP isConsoleError = 0 :=
  ⟨rfl, rfl⟩

/-- C5 amended: a failure of a watch-triggered rebuild or asset re-copy is not
handled by the program at all — the callbacks print no error and never close a
watcher, so both subscriptions remain in their previous state for subsequent
change events; the rejected promise is left to the runtime. -/
theorem watchHandlers_keep_watching (processCwd : String) (aso : AssetsOptions)
    (copyRes rebuildRes : Except Err Unit) (s : WatchState) :
    (assetChangeHandler processCwd aso copyRes s).1 = s ∧
    ((assetChangeHandler processCwd aso copyRes s).2).countP isClose = 0 ∧
    ((assetChangeHandler processCwd aso copyRes s).2).countP isConsoleError = 0 ∧
    (codeChangeHandler rebuildRes s).1 = s ∧
    ((codeChangeHandler rebuildRes s).2).countP isClose = 0 ∧
    ((codeChangeHandler rebuildRes s).2).countP isConsoleError = 0 := by
  cases copyRes <;> cases rebuildRes <;> exact ⟨rfl, rfl, rfl, rfl, rfl, rfl⟩

end Etsc
